import Mathlib

/-!
Verification of the sherdog-scraper entity layer (src/sherdog.py) against its
natural-language specification. The Python code is shallowly embedded: pure
helpers become Lean functions, fallible Python operations return
`Except PyErr`, the per-object attribute dictionary becomes a function
`String → Option PyVal`, and object identity (Python `is`) is made explicit
by threading an allocation counter, since each constructor call in the code
allocates a fresh object.
-/

namespace Sherdog

/-- Python exceptions relevant to the embedded code paths. `ioError` stands
for the error raised by the urllib fetch when it fails. -/
inductive PyErr where
  | valueError
  | keyError
  | indexError
  | typeError
  | attributeError (key : String)
  | ioError
deriving DecidableEq, Repr

instance {ε α : Type} [DecidableEq ε] [DecidableEq α] : DecidableEq (Except ε α) := fun x y =>
  match x, y with
  | Except.ok a, Except.ok b =>
    if h : a = b then isTrue (by rw [h]) else isFalse (by intro hc; cases hc; exact h rfl)
  | Except.error e, Except.error f =>
    if h : e = f then isTrue (by rw [h]) else isFalse (by intro hc; cases hc; exact h rfl)
  | Except.ok _, Except.error _ => isFalse (by intro hc; cases hc)
  | Except.error _, Except.ok _ => isFalse (by intro hc; cases hc)

/-- Python attribute values occurring in the embedded fragments. -/
inductive PyVal where
  | int (i : Int)
  | str (s : String)
  | pynone
deriving DecidableEq, Repr

/-- Strip leading and trailing whitespace, as Python int() does before
parsing. -/
def stripWS (cs : List Char) : List Char :=
  ((cs.dropWhile Char.isWhitespace).reverse.dropWhile Char.isWhitespace).reverse

def digitsToNatAux : List Char → Nat → Option Nat
  | [], acc => some acc
  | c :: cs, acc => if c.isDigit then digitsToNatAux cs (acc * 10 + (c.toNat - 48)) else none

def digitsToNat (cs : List Char) : Option Nat :=
  if cs.isEmpty then none else digitsToNatAux cs 0

/-- Python `int(s)` for base-10 string input: optional surrounding whitespace,
optional sign, one or more decimal digits; `none` models ValueError. -/
def pyInt (s : String) : Option Int :=
  match stripWS s.data with
  | '-' :: rest => (digitsToNat rest).map (fun n => -(n : Int))
  | '+' :: rest => (digitsToNat rest).map (fun n => (n : Int))
  | cs => (digitsToNat cs).map (fun n => (n : Int))

/-- Python `int(s)` in the exception monad. -/
def pyIntE (s : String) : Except PyErr Int :=
  match pyInt s with
  | some i => Except.ok i
  | none => Except.error PyErr.valueError

/-- The substring after the last '-', the whole string when no '-' occurs:
Python `id_or_url[id_or_url.rfind('-') + 1:]` from LazySherdogObject.__init__. -/
def afterLastDash (s : String) : String :=
  ⟨(s.data.reverse.takeWhile (fun c => c ≠ '-')).reverse⟩

/-- The three entity kinds (subclasses of LazySherdogObject). -/
inductive Kind where
  | organization
  | fighter
  | event
deriving DecidableEq, Repr

/-- The `url_path_template` class attribute of each subclass, without the
trailing %d conversion. -/
def url_path_template : Kind → String
  | Kind.organization => "/organizations/X-"
  | Kind.fighter => "/fighter/X-"
  | Kind.event => "/events/X-"

/-- `self.url = self.url_path_template % self.id` (Python %d formatting of an
int agrees with decimal `toString`). -/
def formatUrl (k : Kind) (i : Int) : String := url_path_template k ++ toString i

/-- The per-instance attribute dictionary. -/
abbrev Fields := String → Option PyVal

/-- Python `setattr(self, key, value)`. -/
def setattrF (f : Fields) (k : String) (v : PyVal) : Fields :=
  fun x => if x = k then some v else f x

def emptyFields : Fields := fun _ => none

/-- The id computation of LazySherdogObject.__init__: numeric suffix after the
last '-' for a string argument, `int(x)` for a numeric argument. -/
def canonicalId : String ⊕ Int → Except PyErr Int
  | Sum.inl s => pyIntE (afterLastDash s)
  | Sum.inr i => Except.ok i

/-- LazySherdogObject.__init__ (src/sherdog.py lines 52-70): keyword
arguments are set first via setattr, then `self.id` and `self.url` are
assigned, overwriting any keyword of the same name. -/
def lazyInit (k : Kind) (idOrUrl : String ⊕ Int) (kwargs : List (String × PyVal)) :
    Except PyErr Fields :=
  let f0 : Fields := kwargs.foldl (fun f kv => setattrF f kv.1 kv.2) emptyFields
  (canonicalId idOrUrl).bind fun i =>
    Except.ok (setattrF (setattrF f0 "id" (PyVal.int i)) "url" (PyVal.str (formatUrl k i)))

/-- A live Python object: its class, its identity (address, made explicit as
an allocation number), and its attribute dictionary. -/
structure PyObject where
  kind : Kind
  ref : Nat
  fields : Fields

/-- One constructor call, e.g. `Fighter(id_or_url, **kwargs)`: runs __init__
and allocates a fresh object identity. The code has no registry or cache, so
every call returns a new object. -/
def newObject (k : Kind) (idOrUrl : String ⊕ Int) (kwargs : List (String × PyVal))
    (alloc : Nat) : Except PyErr (PyObject × Nat) :=
  (lazyInit k idOrUrl kwargs).map (fun f => (PyObject.mk k alloc f, alloc + 1))

def objId (o : PyObject) : Option PyVal := o.fields "id"

/-- LazySherdogObject.__eq__ (lines 83-85): `self.id == other.id`, after an
isinstance assertion that any of the three kinds passes. The kind is not
compared. -/
def objEq (a b : PyObject) : Bool := decide (objId a = objId b)

/-- CPython hash of an integer (64-bit build): reduction modulo 2^61 - 1 with
the sign preserved, and -1 mapped to -2. -/
def pyIntHash (i : Int) : Int :=
  let m : Int := 2 ^ 61 - 1
  let h := if 0 ≤ i then i % m else -((-i) % m)
  if h = -1 then -2 else h

/-- LazySherdogObject.__hash__ (lines 87-88): `hash(self.id)`. `none` models
the AttributeError path of an object whose id attribute is unset, which does
not arise after __init__. -/
def objHash (o : PyObject) : Option Int :=
  match objId o with
  | some (PyVal.int i) => some (pyIntHash i)
  | _ => none

/-- The mutable lazy-loading state of a LazySherdogObject: the `_lazy` flag
(class default True, set False as an instance attribute inside __getattr__)
and the instance attribute dictionary. -/
structure LazyState where
  lazy : Bool
  fields : Fields

/-- `_load_properties` setting each parsed property on self via setattr. -/
def loadInto (fields : Fields) (props : List (String × PyVal)) : Fields :=
  props.foldl (fun f kv => setattrF f kv.1 kv.2) fields

/-- One attribute read, combining normal attribute lookup with
LazySherdogObject.__getattr__ (lines 72-78). `fetchResult` is the outcome of
the single fetch+parse that `_load_properties` would perform: on success it
yields the properties the extraction rules set, on failure the fetch raises.
Returns the read result, the post state, and the number of Fetcher
invocations performed by this read. Note `self._lazy = False` is executed
before `self._load_properties()`, so the flag is cleared even when the fetch
raises. -/
def getattrStep (fetchResult : Except Unit (List (String × PyVal)))
    (st : LazyState) (key : String) : Except PyErr PyVal × LazyState × Nat :=
  match st.fields key with
  | some v => (Except.ok v, st, 0)
  | none =>
    if st.lazy then
      match fetchResult with
      | Except.error _ => (Except.error PyErr.ioError, LazyState.mk false st.fields, 1)
      | Except.ok props =>
        let f := loadInto st.fields props
        match f key with
        | some v => (Except.ok v, LazyState.mk false f, 1)
        | none => (Except.error (PyErr.attributeError key), LazyState.mk false f, 1)
    else (Except.error (PyErr.attributeError key), st, 0)

/-- An <a> element as used by the fight and search parsers: its href
attribute and its text. -/
structure Anchor where
  href : String
  text : String
deriving DecidableEq, Repr

/-- A Fighter reference as constructed during fight parsing by
`Fighter(a['href'], name=a.text)`, projected to the fields __init__ sets:
canonical id, canonical url, and the seeded name. -/
structure SFighter where
  id : Int
  url : String
  name : String
deriving DecidableEq, Repr

/-- `Fighter(a['href'], name=a.text)` inside Event fight parsing. -/
def mkFighter (a : Anchor) : Except PyErr SFighter :=
  match pyInt (afterLastDash a.href) with
  | some i => Except.ok (SFighter.mk i (formatUrl Kind.fighter i) a.text)
  | none => Except.error PyErr.valueError

/-- The Fight namedtuple (src/sherdog.py lines 286-302), without the circular
`event` back-reference, which no claim concerns. A fight time is modelled as
total seconds of the timedelta. -/
structure Fight where
  fighters : SFighter × SFighter
  winner : Option SFighter
  matchNum : Option Int
  method : Option String
  referee : Option String
  round : Option Int
  time : Option Int
deriving DecidableEq, Repr

/-- Python `':' in timestr` for a one-character needle. -/
def containsChar (s : String) (c : Char) : Bool := s.data.contains c

/-- Python `s.split(sep, 1)`: the part before the first separator and the
part after it. -/
def splitFirst (sep : Char) (s : String) : String × String :=
  (⟨s.data.takeWhile (fun c => c ≠ sep)⟩,
   ⟨s.data.drop ((s.data.takeWhile (fun c => c ≠ sep)).length + 1)⟩)

/-- Event._parse_fight_time (lines 334-338): empty or colon-free input gives
None; otherwise split at the first colon and build
`timedelta(minutes=int(m), seconds=int(s))`, where int() can raise. -/
def parse_fight_time (timestr : String) : Except PyErr (Option Int) :=
  if timestr = "" then Except.ok none
  else if containsChar timestr ':' = false then Except.ok none
  else
    (pyIntE (splitFirst ':' timestr).1).bind fun minutes =>
    (pyIntE (splitFirst ':' timestr).2).bind fun seconds =>
    Except.ok (some (60 * minutes + seconds))

/-- Event._fight_winner (lines 340-346). -/
def fight_winner (resultText : String) (left right : SFighter) : Option SFighter :=
  if resultText = "draw" then none
  else if resultText = "win" then some left
  else some right

/-- Python `dict(zip(keys, values))` as a lookup function; a later binding of
the same key wins. -/
def pyDictOf (pairs : List (String × String)) : String → Option String :=
  pairs.foldl (fun d kv => fun x => if x = kv.1 then some kv.2 else d x) (fun _ => none)

/-- Python `info[k]`, raising KeyError when missing. -/
def dictGet (d : String → Option String) (k : String) : Except PyErr String :=
  match d k with
  | some v => Except.ok v
  | none => Except.error PyErr.keyError

/-- The fragments of the event page consumed by Event._parse_main_fight: the
left and right fighter anchors, the text of the final_result span when that
span is present, and the key/value cells of the resume table (keys lowered,
values left-stripped, as the code computes them). -/
structure MainFightInput where
  left : Anchor
  right : Anchor
  resultText : Option String
  resume : List (String × String)
deriving DecidableEq, Repr

/-- Event._parse_main_fight (lines 348-371). -/
def parse_main_fight (inp : MainFightInput) : Except PyErr Fight :=
  (mkFighter inp.left).bind fun lf =>
  (mkFighter inp.right).bind fun rf =>
  match inp.resultText with
  | none =>
    Except.ok (Fight.mk (lf, rf) none none none none none none)
  | some res =>
    (dictGet (pyDictOf inp.resume) "time").bind fun timeStr =>
    (parse_fight_time timeStr).bind fun time =>
    (dictGet (pyDictOf inp.resume) "match").bind fun matchStr =>
    (pyIntE matchStr).bind fun matchN =>
    (dictGet (pyDictOf inp.resume) "method").bind fun methodStr =>
    (dictGet (pyDictOf inp.resume) "referee").bind fun refereeStr =>
    (dictGet (pyDictOf inp.resume) "round").bind fun roundStr =>
    (pyIntE roundStr).bind fun roundN =>
    Except.ok (Fight.mk (lf, rf) (fight_winner res lf rf)
      (some matchN) (some methodStr) (some refereeStr) (some roundN) time)

/-- One node of a td cell contents list: the node itself used as a raw string
(NavigableString, used for the method field) and its `.text` (used for the
referee field). -/
structure TdNode where
  raw : String
  text : String
deriving DecidableEq, Repr

/-- A td cell of an undercard row, carrying the pieces the parser reads: its
first anchor child (None when absent), the text of a contained final_result
span when present, its text, and its contents list. -/
structure Td where
  a : Option Anchor
  finalResultText : Option String
  text : String
  contents : List TdNode
deriving DecidableEq, Repr

/-- Python `l[i]` with IndexError. -/
def pyIndex {α : Type} (l : List α) (i : Nat) : Except PyErr α :=
  match l[i]? with
  | some x => Except.ok x
  | none => Except.error PyErr.indexError

/-- Python `l[-1]` with IndexError. -/
def pyLast {α : Type} (l : List α) : Except PyErr α :=
  match l.getLast? with
  | some x => Except.ok x
  | none => Except.error PyErr.indexError

/-- Subscripting a value that may be None, raising TypeError on None (the
`td[1].a['href']` access when the cell has no anchor). -/
def reqSome {α : Type} (x : Option α) : Except PyErr α :=
  match x with
  | some v => Except.ok v
  | none => Except.error PyErr.typeError

/-- Event._parse_sub_fight (lines 373-392), on the td cells of one row. -/
def parse_sub_fight (tds : List Td) : Except PyErr Fight :=
  (pyIndex tds 1).bind fun td1 =>
  (pyIndex tds 3).bind fun td3 =>
  (reqSome td1.a).bind fun la =>
  (reqSome td3.a).bind fun ra =>
  (mkFighter la).bind fun lf =>
  (mkFighter ra).bind fun rf =>
  match td1.finalResultText with
  | none =>
    Except.ok (Fight.mk (lf, rf) none none none none none none)
  | some res =>
    (pyIndex tds 0).bind fun td0 =>
    (pyIntE td0.text).bind fun m =>
    (pyIndex tds 4).bind fun td4 =>
    (pyIndex td4.contents 0).bind fun methodNode =>
    (pyLast td4.contents).bind fun refNode =>
    (pyIndex tds 5).bind fun td5 =>
    (pyIntE td5.text).bind fun r =>
    (pyIndex tds 6).bind fun td6 =>
    (parse_fight_time td6.text).bind fun t =>
    Except.ok (Fight.mk (lf, rf) (fight_winner res lf rf) (some m) (some methodNode.raw)
      (some refNode.text) (some r) t)

/-- A Python list comprehension whose element expression may raise: it stops
at the first error. -/
def exceptMapM {α β : Type} (f : α → Except PyErr β) : List α → Except PyErr (List β)
  | [] => Except.ok []
  | x :: xs => (f x).bind fun b => (exceptMapM f xs).bind fun bs => Except.ok (b :: bs)

/-- Event._parse_sub_fights (lines 394-397): parse every undercard row in
document order. -/
def parse_sub_fights (rows : List (List Td)) : Except PyErr (List Fight) :=
  exceptMapM parse_sub_fight rows

/-- The fight-card assembly of Event._load_properties (lines 416-418):
`self.fights = [main]`, extend with the undercard rows, then reverse in
place. -/
def event_load_fights (mainInp : MainFightInput) (rows : List (List Td)) :
    Except PyErr (List Fight) :=
  (parse_main_fight mainInp).bind fun mainF =>
  (parse_sub_fights rows).bind fun subs =>
  Except.ok ((mainF :: subs).reverse)

/-- A counter span element from the win/loss bio_graph blocks: its direct
text-node contents. BeautifulSoup 3 gives a Tag a length (hence a truth
value) equal to the length of its contents list. -/
structure CounterTag where
  contents : List String
deriving DecidableEq, Repr

/-- The `.text` of the counter span: concatenation of its string contents. -/
def tagText (t : CounterTag) : String := ⟨(t.contents.map String.data).flatten⟩

/-- BeautifulSoup 3 truthiness of a Tag: nonempty contents. -/
def tagTruthy (t : CounterTag) : Bool := !(t.contents.isEmpty)

/-- The win (respectively loss) counter logic of Fighter._parse_stats
(lines 262-270). The argument is the outcome of the two finds: `none` when
the bio_graph block is missing, `some none` when the block is present but
contains no counter span, `some (some t)` when the counter span `t` was
found. The result is `none` when the attribute is never set (block missing),
`some w` when `self.wins` is assigned `w`. -/
def parse_counter (graph : Option (Option CounterTag)) : Except PyErr (Option Int) :=
  match graph with
  | none => Except.ok none
  | some none => Except.ok (some 0)
  | some (some t) =>
    if tagTruthy t then (pyIntE (tagText t)).map (fun n => some n)
    else Except.ok (some 0)

/-- Python `s.lower()` (ASCII). -/
def pyLower (s : String) : String := ⟨s.data.map Char.toLower⟩

def hexDigitChar (n : Nat) : Char :=
  (['0', '1', '2', '3', '4', '5', '6', '7', '8', '9',
    'A', 'B', 'C', 'D', 'E', 'F']).getD n '0'

def quoteByte (n : Nat) : String := ⟨['%', hexDigitChar (n / 16 % 16), hexDigitChar (n % 16)]⟩

def quoteSafe (c : Char) : Bool :=
  c.isAlphanum || c == '_' || c == '.' || c == '-' || c == '/'

/-- urllib.quote with the default safe characters, for ASCII input: letters,
digits, underscore, dot, dash and slash pass through, anything else is
percent-encoded. -/
def urlquote (s : String) : String :=
  String.join (s.data.map (fun c => if quoteSafe c then String.singleton c else quoteByte c.toNat))

/-- The search-result document as consumed by Fighter.search and
Event.search: the result of `dom.find('table', 'fightfinder_result')`
(`none` models a missing table) together with the anchors `findAll('a')`
returns from it. -/
structure SearchDom where
  anchors : Option (List Anchor)
deriving DecidableEq, Repr

/-- `search_url_path_template % query` after `urllib.quote(query.lower())`,
shared by Fighter.search and Event.search. -/
def fightfinderPath (query : String) : String :=
  "/stats/fightfinder?SearchTxt=" ++ urlquote (pyLower query)

/-- Fighter.search (lines 199-214): quote the lowered query, fetch the search
path (unconditionally: there is no query validation), collect all anchor
hrefs of the result table, keep those matching `^/fighter/`, and construct a
Fighter from each (modelled by its canonical id). The second component lists
the paths given to the Fetcher, in order. -/
def fighter_search (fetch : String → Except Unit SearchDom) (query : String) :
    Except PyErr (List Int) × List String :=
  let path := fightfinderPath query
  let result : Except PyErr (List Int) :=
    match fetch path with
    | Except.error _ => Except.error PyErr.ioError
    | Except.ok dom =>
      match dom.anchors with
      | none => Except.error (PyErr.attributeError "findAll")
      | some ancs =>
        let urls := (ancs.map Anchor.href).filter (fun u => u.startsWith "/fighter/")
        exceptMapM (fun u => pyIntE (afterLastDash u)) urls
  (result, [path])

/-- Event.search (lines 420-435): identical to Fighter.search with the
`^/events/` pattern. -/
def event_search (fetch : String → Except Unit SearchDom) (query : String) :
    Except PyErr (List Int) × List String :=
  let path := fightfinderPath query
  let result : Except PyErr (List Int) :=
    match fetch path with
    | Except.error _ => Except.error PyErr.ioError
    | Except.ok dom =>
      match dom.anchors with
      | none => Except.error (PyErr.attributeError "findAll")
      | some ancs =>
        let urls := (ancs.map Anchor.href).filter (fun u => u.startsWith "/events/")
        exceptMapM (fun u => pyIntE (afterLastDash u)) urls
  (result, [path])

/-! Helper lemmas -/

theorem exceptBind_ok {α β : Type} {x : Except PyErr α} {f : α → Except PyErr β} {b : β}
    (h : x.bind f = Except.ok b) : ∃ a, x = Except.ok a ∧ f a = Except.ok b := by
  cases x with
  | error e => simp [Except.bind] at h
  | ok a => exact ⟨a, rfl, by simpa [Except.bind] using h⟩

theorem setattrF_self (f : Fields) (k : String) (v : PyVal) : setattrF f k v k = some v := by
  simp [setattrF]

theorem setattrF_ne (f : Fields) (k : String) (v : PyVal) (x : String) (h : x ≠ k) :
    setattrF f k v x = f x := by
  simp [setattrF, h]

theorem exceptMapM_ok_length {α β : Type} (f : α → Except PyErr β) :
    ∀ (xs : List α) (ys : List β), exceptMapM f xs = Except.ok ys → ys.length = xs.length := by
  intro xs
  induction xs with
  | nil =>
    intro ys h
    simp [exceptMapM] at h
    simp [← h]
  | cons x xs ih =>
    intro ys h
    unfold exceptMapM at h
    obtain ⟨b, hb, h2⟩ := exceptBind_ok h
    obtain ⟨bs, hbs, h3⟩ := exceptBind_ok h2
    simp at h3
    subst h3
    simp [ih bs hbs]

/-- The core fact about LazySherdogObject.__init__: whatever the keyword
arguments were, the final id and url attributes are the canonical ones. -/
theorem lazyInit_fields (k : Kind) (idOrUrl : String ⊕ Int)
    (kwargs : List (String × PyVal)) (i : Int) (f : Fields)
    (hid : canonicalId idOrUrl = Except.ok i)
    (hinit : lazyInit k idOrUrl kwargs = Except.ok f) :
    f "id" = some (PyVal.int i) ∧ f "url" = some (PyVal.str (formatUrl k i)) := by
  unfold lazyInit at hinit
  rw [hid] at hinit
  simp [Except.bind] at hinit
  subst hinit
  refine ⟨?_, ?_⟩
  · rw [setattrF_ne _ _ _ _ (by decide), setattrF_self]
  · rw [setattrF_self]

theorem newObject_ok {k : Kind} {u : String ⊕ Int} {kw : List (String × PyVal)}
    {a : Nat} {o : PyObject} {n : Nat}
    (h : newObject k u kw a = Except.ok (o, n)) :
    ∃ f, lazyInit k u kw = Except.ok f ∧ o = PyObject.mk k a f ∧ n = a + 1 := by
  unfold newObject at h
  cases hf : lazyInit k u kw with
  | error e => rw [hf] at h; simp [Except.map] at h
  | ok f =>
    rw [hf] at h
    simp [Except.map] at h
    exact ⟨f, rfl, h.1.symm, h.2.symm⟩

/-! Claim theorems -/

/-- Claim C10 (confirmed): for every entity constructed with any seed keyword
fields, after construction the id field equals the canonical id derived from
the positional argument (integer suffix after the last dash of a string, or
the integer value of a numeric argument) and the url field equals the path
template of the kind applied to that id; seed keyword fields, even one named
id, never override the canonical id or url, because __init__ assigns id and
url after the keyword loop. -/
theorem C10_ctor_canonical (k : Kind) (idOrUrl : String ⊕ Int)
    (kwargs : List (String × PyVal)) (i : Int) (f : Fields)
    (hid : canonicalId idOrUrl = Except.ok i)
    (hinit : lazyInit k idOrUrl kwargs = Except.ok f) :
    f "id" = some (PyVal.int i) ∧ f "url" = some (PyVal.str (formatUrl k i)) :=
  lazyInit_fields k idOrUrl kwargs i f hid hinit

/-- Witness for C10: the Organization search loop shape, a seed keyword
literally named id (999) together with a string positional argument whose
canonical id is 2; the constructed object carries id 2 and the canonical
url. -/
theorem C10_witness :
    (lazyInit Kind.organization (Sum.inl "Ultimate-Fighting-Championship-2")
        [("id", PyVal.int 999), ("name", PyVal.str "UFC")]).map
      (fun f => (f "id", f "url"))
    = Except.ok (some (PyVal.int 2), some (PyVal.str "/organizations/X-2")) := by
  cases hf : lazyInit Kind.organization (Sum.inl "Ultimate-Fighting-Championship-2")
      [("id", PyVal.int 999), ("name", PyVal.str "UFC")] with
  | error e =>
    exfalso
    revert hf
    unfold lazyInit
    rw [show canonicalId (Sum.inl "Ultimate-Fighting-Championship-2") = Except.ok 2 from by decide]
    simp [Except.bind]
  | ok f =>
    obtain ⟨h1, h2⟩ := C10_ctor_canonical Kind.organization
      (Sum.inl "Ultimate-Fighting-Championship-2")
      [("id", PyVal.int 999), ("name", PyVal.str "UFC")] 2 f (by decide) hf
    rw [show formatUrl Kind.organization 2 = "/organizations/X-2" from by decide] at h2
    simp [Except.map, h1, h2]

/-- Claim C4 counterexample: a Fighter with id 5 and an Event with id 5 are
of different kinds, yet __eq__ holds between them, because __eq__ compares
only the ids; the claim that equality holds only between entities of the
same kind is false. -/
theorem C4_counterexample :
    ((newObject Kind.fighter (Sum.inr 5) [] 0).bind fun p1 =>
     (newObject Kind.event (Sum.inr 5) [] p1.2).bind fun p2 =>
     Except.ok (objEq p1.1 p2.1, decide (p1.1.kind = p2.1.kind)))
    = Except.ok (true, false) := by decide

/-- Claim C4 (corrected): equality of Lazy Entities is determined solely by
id, regardless of kind, seed fields and hydration state: two constructed
entities are __eq__-equal iff their canonical ids coincide, and the hash is
the numeric hash of the id alone. -/
theorem C4_eq_hash_by_id (k1 k2 : Kind) (u1 u2 : String ⊕ Int)
    (kw1 kw2 : List (String × PyVal)) (a1 a2 : Nat)
    (i1 i2 : Int) (o1 o2 : PyObject) (n1 n2 : Nat)
    (h1 : canonicalId u1 = Except.ok i1) (h2 : canonicalId u2 = Except.ok i2)
    (ho1 : newObject k1 u1 kw1 a1 = Except.ok (o1, n1))
    (ho2 : newObject k2 u2 kw2 a2 = Except.ok (o2, n2)) :
    (objEq o1 o2 = true ↔ i1 = i2) ∧ objHash o1 = some (pyIntHash i1) := by
  obtain ⟨f1, hf1, hoo1, -⟩ := newObject_ok ho1
  obtain ⟨f2, hf2, hoo2, -⟩ := newObject_ok ho2
  obtain ⟨hid1, -⟩ := lazyInit_fields k1 u1 kw1 i1 f1 h1 hf1
  obtain ⟨hid2, -⟩ := lazyInit_fields k2 u2 kw2 i2 f2 h2 hf2
  subst hoo1
  subst hoo2
  constructor
  · simp [objEq, objId, hid1, hid2]
  · simp [objHash, objId, hid1]

/-- Witness for C4: a Fighter seeded from the integer 5 and an Event seeded
from the string "X-5" with a stray id keyword are __eq__-equal, and the
Fighter hash is the integer hash of 5. -/
theorem C4_witness :
    ((newObject Kind.fighter (Sum.inr 5) [] 0).bind fun p1 =>
     (newObject Kind.event (Sum.inl "X-5") [("id", PyVal.int 7)] 3).bind fun p2 =>
     Except.ok (objEq p1.1 p2.1, objHash p1.1))
    = Except.ok (true, some (pyIntHash 5)) := by
  cases hA : newObject Kind.fighter (Sum.inr 5) [] 0 with
  | error e =>
    exfalso
    revert hA
    simp [newObject, lazyInit, canonicalId, Except.bind, Except.map]
  | ok p1 =>
    cases hB : newObject Kind.event (Sum.inl "X-5") [("id", PyVal.int 7)] 3 with
    | error e =>
      exfalso
      revert hB
      unfold newObject lazyInit
      rw [show canonicalId (Sum.inl "X-5") = Except.ok 5 from by decide]
      simp [Except.bind, Except.map]
    | ok p2 =>
      obtain ⟨hEq, hHash⟩ := C4_eq_hash_by_id Kind.fighter Kind.event (Sum.inr 5)
        (Sum.inl "X-5") [] [("id", PyVal.int 7)] 0 3 5 5 p1.1 p2.1 p1.2 p2.2
        (by decide) (by decide) hA hB
      simp [Except.bind, hEq.mpr rfl, hHash]

/-- Claim C1 counterexample: the two construction paths for Fighter 2329 (a
direct lookup by numeric id, and the incidental construction performed by
Event._parse_sub_fight from an anchor with a seeded name) produce two objects
with distinct identities; they are __eq__-equal but not the same live
instance, so the claimed reference equality is false — the code has no
Identity Registry. -/
theorem C1_counterexample :
    ((newObject Kind.fighter (Sum.inr 2329) [] 0).bind fun p1 =>
     (newObject Kind.fighter (Sum.inl "/fighter/Frank-Mir-2329")
        [("name", PyVal.str "Frank Mir")] p1.2).bind fun p2 =>
     Except.ok (decide (p1.1.ref = p2.1.ref), objEq p1.1 p2.1))
    = Except.ok (false, true) := by decide

/-- Claim C1 (corrected): any two constructions of an entity reference for
the same (kind, id) — whatever the seed keyword fields — allocate two
distinct live instances; the instances agree on the id and url attributes and
are equal under the id-based __eq__, but reference equality never holds
between them, since each constructor call allocates a fresh object and no
registry interns instances. -/
theorem C1_distinct_instances (k : Kind) (u1 u2 : String ⊕ Int)
    (kw1 kw2 : List (String × PyVal)) (a : Nat) (i : Int)
    (o1 o2 : PyObject) (n1 n2 : Nat)
    (h1 : canonicalId u1 = Except.ok i) (h2 : canonicalId u2 = Except.ok i)
    (ho1 : newObject k u1 kw1 a = Except.ok (o1, n1))
    (ho2 : newObject k u2 kw2 n1 = Except.ok (o2, n2)) :
    o1.ref ≠ o2.ref ∧ objEq o1 o2 = true ∧
    o1.fields "id" = o2.fields "id" ∧ o1.fields "url" = o2.fields "url" := by
  obtain ⟨f1, hf1, hoo1, hn1⟩ := newObject_ok ho1
  obtain ⟨f2, hf2, hoo2, -⟩ := newObject_ok ho2
  obtain ⟨hid1, hurl1⟩ := lazyInit_fields k u1 kw1 i f1 h1 hf1
  obtain ⟨hid2, hurl2⟩ := lazyInit_fields k u2 kw2 i f2 h2 hf2
  subst hoo1
  subst hoo2
  subst hn1
  refine ⟨by simp, ?_, ?_, ?_⟩
  · simp [objEq, objId, hid1, hid2]
  · simp [hid1, hid2]
  · simp [hurl1, hurl2]

/-- Witness for C1: Event 20353 reached by numeric id and by its page url
gives two distinct, __eq__-equal instances. -/
theorem C1_witness :
    ((newObject Kind.event (Sum.inr 20353) [] 4).bind fun p1 =>
     (newObject Kind.event (Sum.inl "UFC-146-Dos-Santos-vs-Mir-20353") [] p1.2).bind fun p2 =>
     Except.ok (decide (p1.1.ref = p2.1.ref), objEq p1.1 p2.1))
    = Except.ok (false, true) := by
  cases hA : newObject Kind.event (Sum.inr 20353) [] 4 with
  | error e =>
    exfalso
    revert hA
    simp [newObject, lazyInit, canonicalId, Except.bind, Except.map]
  | ok p1 =>
    cases hB : newObject Kind.event (Sum.inl "UFC-146-Dos-Santos-vs-Mir-20353") [] p1.2 with
    | error e =>
      exfalso
      revert hB
      unfold newObject lazyInit
      rw [show canonicalId (Sum.inl "UFC-146-Dos-Santos-vs-Mir-20353") = Except.ok 20353 from by decide]
      simp [Except.bind, Except.map]
    | ok p2 =>
      obtain ⟨hne, hEq, -, -⟩ := C1_distinct_instances Kind.event (Sum.inr 20353)
        (Sum.inl "UFC-146-Dos-Santos-vs-Mir-20353") [] [] 4 20353 p1.1 p2.1 p1.2 p2.2
        (by decide) (by decide) hA hB
      simp [Except.bind, hB, decide_eq_false hne, hEq]

/-- Claim C2 counterexample: on an entity whose fetch fails, the field read
that triggered hydration propagates the raw fetch error, while the next read
of the same field raises a plain AttributeError — a different condition, and
neither is scoped to an entity kind (no such condition exists in the code).
The claim that every subsequent read raises the same not-found condition is
false. -/
theorem C2_counterexample :
    (getattrStep (Except.error ()) (LazyState.mk true emptyFields) "name").1
      = Except.error PyErr.ioError ∧
    (getattrStep (Except.error ())
        ((getattrStep (Except.error ()) (LazyState.mk true emptyFields) "name").2.1)
        "name").1
      = Except.error (PyErr.attributeError "name") ∧
    PyErr.ioError ≠ PyErr.attributeError "name" := by decide

/-- Claim C2 (corrected): when the fetch raises, the triggering field read
propagates the fetch error unchanged (there is no kind-scoped does-not-exist
condition), the _lazy flag is cleared and the fields are left untouched, and
every subsequent read of a still-missing field raises AttributeError for that
field name without invoking the Fetcher again — absence is sticky with
respect to fetching, but the condition raised later differs from the first
one. -/
theorem C2_sticky_failure (st : LazyState) (key : String)
    (hl : st.lazy = true) (hk : st.fields key = none) :
    (getattrStep (Except.error ()) st key).1 = Except.error PyErr.ioError ∧
    (getattrStep (Except.error ()) st key).2.2 = 1 ∧
    ((getattrStep (Except.error ()) st key).2.1).lazy = false ∧
    ((getattrStep (Except.error ()) st key).2.1).fields = st.fields ∧
    (∀ (fr2 : Except Unit (List (String × PyVal))) (key2 : String),
      st.fields key2 = none →
      (getattrStep fr2 ((getattrStep (Except.error ()) st key).2.1) key2).1
        = Except.error (PyErr.attributeError key2) ∧
      (getattrStep fr2 ((getattrStep (Except.error ()) st key).2.1) key2).2.2 = 0) := by
  have hstep : getattrStep (Except.error ()) st key
      = (Except.error PyErr.ioError, LazyState.mk false st.fields, 1) := by
    unfold getattrStep
    rw [hk, hl]
    simp
  refine ⟨by rw [hstep], by rw [hstep], by rw [hstep], by rw [hstep], ?_⟩
  intro fr2 key2 hk2
  rw [hstep]
  unfold getattrStep
  rw [hk2]
  simp

/-- Witness for C2: a fresh unhydrated entity with a failing fetch; the first
read of name raises the fetch error, and a later read of wins raises
AttributeError with no further fetch even though a retry fetch would now
succeed. -/
theorem C2_witness :
    (getattrStep (Except.error ()) (LazyState.mk true emptyFields) "name").1
      = Except.error PyErr.ioError ∧
    (getattrStep (Except.ok [("name", PyVal.str "Frank Mir")])
        ((getattrStep (Except.error ()) (LazyState.mk true emptyFields) "name").2.1)
        "wins").1
      = Except.error (PyErr.attributeError "wins") ∧
    (getattrStep (Except.ok [("name", PyVal.str "Frank Mir")])
        ((getattrStep (Except.error ()) (LazyState.mk true emptyFields) "name").2.1)
        "wins").2.2 = 0 := by
  obtain ⟨h1, -, -, -, h5⟩ :=
    C2_sticky_failure (LazyState.mk true emptyFields) "name" rfl rfl
  exact ⟨h1, (h5 (Except.ok [("name", PyVal.str "Frank Mir")]) "wins" rfl).1,
    (h5 (Except.ok [("name", PyVal.str "Frank Mir")]) "wins" rfl).2⟩

/-- Claim C9 (confirmed): once hydration has completed (the _lazy flag is
cleared), reading a field the extraction rules never populated raises
AttributeError for that field name, performs no fetch, and the error is a
different condition from the fetch-failure error. -/
theorem C9_unknown_attribute (fr : Except Unit (List (String × PyVal)))
    (st : LazyState) (key : String)
    (hl : st.lazy = false) (hk : st.fields key = none) :
    getattrStep fr st key = (Except.error (PyErr.attributeError key), st, 0) ∧
    PyErr.attributeError key ≠ PyErr.ioError := by
  constructor
  · unfold getattrStep
    rw [hk, hl]
    simp
  · intro h
    cases h

/-- Witness for C9: a hydrated fighter holding only a name; reading the field
nonexistent raises AttributeError with zero fetches. -/
theorem C9_witness :
    getattrStep (Except.error ())
        (LazyState.mk false (setattrF emptyFields "name" (PyVal.str "Frank Mir")))
        "nonexistent"
      = (Except.error (PyErr.attributeError "nonexistent"),
         LazyState.mk false (setattrF emptyFields "name" (PyVal.str "Frank Mir")), 0) :=
  (C9_unknown_attribute (Except.error ())
    (LazyState.mk false (setattrF emptyFields "name" (PyVal.str "Frank Mir")))
    "nonexistent" rfl (by decide)).1

/-- Claim C3 counterexample: searching fighters with the empty query performs
one fetch (of the search path built from the empty query) and raises no
error at all when the result table is present — the Fetcher is invoked once,
not zero times, and no invalid-query error exists in the code. -/
theorem C3_counterexample :
    (fighter_search (fun _ => Except.ok (SearchDom.mk (some []))) "").2
      = ["/stats/fightfinder?SearchTxt="] ∧
    (fighter_search (fun _ => Except.ok (SearchDom.mk (some []))) "").1
      = Except.ok [] := by decide

/-- Claim C3 (corrected): search performs no query validation: for every
Fetcher, Fighter.search and Event.search with an empty query URL-quote the
lowered query and invoke the Fetcher exactly once, with the search path built
from the empty query; no invalid-query error is raised before the fetch. -/
theorem C3_empty_query_fetches (fetch : String → Except Unit SearchDom) :
    (fighter_search fetch "").2 = ["/stats/fightfinder?SearchTxt="] ∧
    (event_search fetch "").2 = ["/stats/fightfinder?SearchTxt="] := by
  constructor
  · show [fightfinderPath ""] = _
    rw [show fightfinderPath "" = "/stats/fightfinder?SearchTxt=" from by decide]
  · show [fightfinderPath ""] = _
    rw [show fightfinderPath "" = "/stats/fightfinder?SearchTxt=" from by decide]

/-- Claim C5 (confirmed): for a hydrated Event page with one main-event block
and N undercard rows, the assembled fights list has length N + 1, the main
event is the last element, and the first element is the last undercard row in
document order — which, the markup listing bouts main-event-first (reverse
chronological), is the opening bout of the undercard: the parsed list is
main-event-first and then reversed. -/
theorem C5_fight_order (mainInp : MainFightInput) (rows : List (List Td))
    (mainF : Fight) (subs : List Fight) (fights : List Fight)
    (hm : parse_main_fight mainInp = Except.ok mainF)
    (hs : parse_sub_fights rows = Except.ok subs)
    (hf : event_load_fights mainInp rows = Except.ok fights) :
    fights.length = rows.length + 1 ∧
    fights.getLast? = some mainF ∧
    (subs ≠ [] → fights.head? = subs.getLast?) := by
  unfold event_load_fights at hf
  rw [hm] at hf
  simp only [Except.bind] at hf
  rw [hs] at hf
  simp only [Except.ok.injEq] at hf
  subst hf
  have hlen : subs.length = rows.length := exceptMapM_ok_length parse_sub_fight rows subs hs
  refine ⟨by simp [hlen], ?_, ?_⟩
  · rw [List.getLast?_reverse]
    rfl
  · intro hne
    rw [List.head?_reverse]
    cases subs with
    | nil => exact absurd rfl hne
    | cons b bs => rw [List.getLast?_cons_cons]

def c5Main : MainFightInput :=
  MainFightInput.mk (Anchor.mk "/fighter/A-1" "A") (Anchor.mk "/fighter/B-2" "B") none []

def c5Rows : List (List Td) :=
  [[Td.mk none none "" [],
    Td.mk (some (Anchor.mk "/fighter/C-3" "C")) none "" [],
    Td.mk none none "" [],
    Td.mk (some (Anchor.mk "/fighter/D-4" "D")) none "" []]]

def c5MainFight : Fight :=
  Fight.mk (SFighter.mk 1 "/fighter/X-1" "A", SFighter.mk 2 "/fighter/X-2" "B")
    none none none none none none

def c5SubFight : Fight :=
  Fight.mk (SFighter.mk 3 "/fighter/X-3" "C", SFighter.mk 4 "/fighter/X-4" "D")
    none none none none none none

/-- Witness for C5: a page with one main event and one undercard row gives
two fights, the main event last and the undercard bout first. -/
theorem C5_witness :
    ([c5SubFight, c5MainFight] : List Fight).length = c5Rows.length + 1 ∧
    ([c5SubFight, c5MainFight] : List Fight).getLast? = some c5MainFight ∧
    ([c5SubFight] ≠ ([] : List Fight) →
      ([c5SubFight, c5MainFight] : List Fight).head? = ([c5SubFight] : List Fight).getLast?) :=
  C5_fight_order c5Main c5Rows c5MainFight [c5SubFight] [c5SubFight, c5MainFight]
    (by decide) (by decide) (by decide)

theorem fight_winner_mem (res : String) (l r : SFighter) :
    fight_winner res l r = none ∨ fight_winner res l r = some l ∨
      fight_winner res l r = some r := by
  unfold fight_winner
  by_cases h1 : res = "draw"
  · simp [h1]
  · by_cases h2 : res = "win"
    · simp [h1, h2]
    · simp [h1, h2]

def c6Row : List Td :=
  [Td.mk none none "" [],
   Td.mk (some (Anchor.mk "/fighter/Same-5" "S")) none "" [],
   Td.mk none none "" [],
   Td.mk (some (Anchor.mk "/fighter/Same-5" "S")) none "" []]

/-- Claim C6 counterexample: an undercard row whose two anchor cells carry
the same fighter link parses successfully into a Fight whose two members are
equal by identifier — the code never checks the two fighters of a bout for
distinctness, so the claimed never-equal invariant is false. -/
theorem C6_counterexample :
    (parse_sub_fight c6Row).map (fun f => decide (f.fighters.1.id = f.fighters.2.id))
      = Except.ok true := by decide

/-- Claim C6 (corrected): every parsed Fight carries an ordered pair of
exactly two fighter references (the code does not guarantee they differ by
identifier), and the winner, whenever not none, is one of the two, following
the marker rule: a draw marker gives none, a win marker gives the left-side
fighter, any other marker gives the right-side fighter, and an absent marker
gives none. -/
theorem C6_winner_membership :
    (∀ (inp : MainFightInput) (f : Fight), parse_main_fight inp = Except.ok f →
      (f.winner = none ∨ f.winner = some f.fighters.1 ∨ f.winner = some f.fighters.2) ∧
      (inp.resultText = none → f.winner = none) ∧
      (inp.resultText = some "draw" → f.winner = none) ∧
      (inp.resultText = some "win" → f.winner = some f.fighters.1) ∧
      (∀ res, inp.resultText = some res → res ≠ "draw" → res ≠ "win" →
        f.winner = some f.fighters.2)) ∧
    (∀ (tds : List Td) (f : Fight), parse_sub_fight tds = Except.ok f →
      f.winner = none ∨ f.winner = some f.fighters.1 ∨ f.winner = some f.fighters.2) := by
  constructor
  · intro inp f h
    unfold parse_main_fight at h
    obtain ⟨lf, hlf, h⟩ := exceptBind_ok h
    obtain ⟨rf, hrf, h⟩ := exceptBind_ok h
    cases hres : inp.resultText with
    | none =>
      rw [hres] at h
      simp only [Except.ok.injEq] at h
      subst h
      refine ⟨Or.inl rfl, fun _ => rfl, fun hx => ?_, fun hx => ?_, fun res hx => ?_⟩
      · cases hx
      · cases hx
      · cases hx
    | some res =>
      rw [hres] at h
      obtain ⟨timeStr, ht1, h⟩ := exceptBind_ok h
      obtain ⟨time, ht2, h⟩ := exceptBind_ok h
      obtain ⟨matchStr, hm1, h⟩ := exceptBind_ok h
      obtain ⟨matchN, hm2, h⟩ := exceptBind_ok h
      obtain ⟨methodStr, hme, h⟩ := exceptBind_ok h
      obtain ⟨refereeStr, hr1, h⟩ := exceptBind_ok h
      obtain ⟨roundStr, hr2, h⟩ := exceptBind_ok h
      obtain ⟨roundN, hr3, h⟩ := exceptBind_ok h
      simp only [Except.ok.injEq] at h
      subst h
      refine ⟨fight_winner_mem res lf rf, ?_, ?_, ?_, ?_⟩
      · intro hx
        cases hx
      · intro hx
        injection hx with hxe
        subst hxe
        simp [fight_winner]
      · intro hx
        injection hx with hxe
        subst hxe
        simp [fight_winner]
      · intro res2 hx hd hw
        injection hx with hxe
        subst hxe
        simp [fight_winner, hd, hw]
  · intro tds f h
    unfold parse_sub_fight at h
    obtain ⟨td1, h1, h⟩ := exceptBind_ok h
    obtain ⟨td3, h3, h⟩ := exceptBind_ok h
    obtain ⟨la, hla, h⟩ := exceptBind_ok h
    obtain ⟨ra, hra, h⟩ := exceptBind_ok h
    obtain ⟨lf, hlf, h⟩ := exceptBind_ok h
    obtain ⟨rf, hrf, h⟩ := exceptBind_ok h
    cases hres : td1.finalResultText with
    | none =>
      rw [hres] at h
      simp only [Except.ok.injEq] at h
      subst h
      exact Or.inl rfl
    | some res =>
      rw [hres] at h
      obtain ⟨td0, hx0, h⟩ := exceptBind_ok h
      obtain ⟨m, hxm, h⟩ := exceptBind_ok h
      obtain ⟨td4, hx4, h⟩ := exceptBind_ok h
      obtain ⟨methodNode, hx5, h⟩ := exceptBind_ok h
      obtain ⟨refNode, hx6, h⟩ := exceptBind_ok h
      obtain ⟨td5, hx7, h⟩ := exceptBind_ok h
      obtain ⟨r, hx8, h⟩ := exceptBind_ok h
      obtain ⟨td6, hx9, h⟩ := exceptBind_ok h
      obtain ⟨t, hx10, h⟩ := exceptBind_ok h
      simp only [Except.ok.injEq] at h
      subst h
      exact fight_winner_mem res lf rf

def c6WinRow : List Td :=
  [Td.mk none none "5" [],
   Td.mk (some (Anchor.mk "/fighter/L-10" "L")) (some "win") "" [],
   Td.mk none none "" [],
   Td.mk (some (Anchor.mk "/fighter/R-11" "R")) none "" [],
   Td.mk none none "" [TdNode.mk "TKO" "Herb Dean"],
   Td.mk none none "2" [],
   Td.mk none none "3:04" []]

def c6WinFight : Fight :=
  Fight.mk (SFighter.mk 10 "/fighter/X-10" "L", SFighter.mk 11 "/fighter/X-11" "R")
    (some (SFighter.mk 10 "/fighter/X-10" "L"))
    (some 5) (some "TKO") (some "Herb Dean") (some 2) (some 184)

/-- Witness for C6: a fully populated undercard row with a win marker; the
winner of the parsed fight is one of its two fighters. -/
theorem C6_witness :
    c6WinFight.winner = none ∨ c6WinFight.winner = some c6WinFight.fighters.1 ∨
      c6WinFight.winner = some c6WinFight.fighters.2 :=
  C6_winner_membership.2 c6WinRow c6WinFight (by decide)

theorem takeWhile_ne_append (sep : Char) :
    ∀ (l r : List Char), l.contains sep = false →
      (l ++ sep :: r).takeWhile (fun c => c ≠ sep) = l := by
  intro l
  induction l with
  | nil =>
    intro r _
    simp [List.takeWhile]
  | cons c cs ih =>
    intro r h
    simp only [List.contains_cons, Bool.or_eq_false_iff, beq_eq_false_iff_ne] at h
    simp only [List.cons_append, List.takeWhile_cons]
    have hc : c ≠ sep := Ne.symm h.1
    rw [if_pos (by simpa using hc), ih r h.2]

theorem drop_len_append (sep : Char) (l r : List Char) :
    (l ++ sep :: r).drop (l.length + 1) = r := by
  have h1 : l ++ sep :: r = (l ++ [sep]) ++ r := by simp
  have h2 : (l ++ [sep]).length = l.length + 1 := by simp
  rw [h1, ← h2, List.drop_left]

theorem splitFirst_append (m rest : String) (h : containsChar m ':' = false) :
    splitFirst ':' (m ++ ":" ++ rest) = (m, rest) := by
  unfold containsChar at h
  unfold splitFirst
  have hdata : (m ++ ":" ++ rest).data = m.data ++ ':' :: rest.data := by
    simp [String.data_append]
  rw [hdata, takeWhile_ne_append ':' m.data rest.data h, drop_len_append ':' m.data rest.data]

theorem containsChar_append (m rest : String) :
    containsChar (m ++ ":" ++ rest) ':' = true := by
  unfold containsChar
  have hdata : (m ++ ":" ++ rest).data = m.data ++ ':' :: rest.data := by
    simp [String.data_append]
  rw [hdata]
  simp

theorem append_colon_ne_empty (m rest : String) : m ++ ":" ++ rest ≠ "" := by
  intro hc
  have hd := congrArg String.data hc
  simp [String.data_append] at hd

/-- Claim C7 counterexample: the input "a:b" contains a colon but its parts
are not integers, so Event._parse_fight_time raises ValueError — the claim
that the parse never raises for any input string is false. -/
theorem C7_counterexample :
    parse_fight_time "a:b" = Except.error PyErr.valueError := by decide

/-- Claim C7 (corrected): an empty or colon-free string yields the unknown
value; a string of shape MM:SS whose two parts both parse as integers yields
the duration of that many minutes plus seconds; but a string containing a
colon whose minute or second part does not parse as an integer raises
ValueError — the parse is not total. -/
theorem C7_duration_parse :
    (∀ s : String, s = "" ∨ containsChar s ':' = false →
      parse_fight_time s = Except.ok none) ∧
    (∀ (m rest : String) (mi si : Int), containsChar m ':' = false →
      pyInt m = some mi → pyInt rest = some si →
      parse_fight_time (m ++ ":" ++ rest) = Except.ok (some (60 * mi + si))) ∧
    (∀ m rest : String, containsChar m ':' = false →
      pyInt m = none ∨ pyInt rest = none →
      parse_fight_time (m ++ ":" ++ rest) = Except.error PyErr.valueError) := by
  refine ⟨?_, ?_, ?_⟩
  · intro s hs
    unfold parse_fight_time
    rcases hs with hs | hs
    · rw [if_pos hs]
    · rw [hs]
      simp
  · intro m rest mi si hm hmi hsi
    unfold parse_fight_time
    rw [if_neg (append_colon_ne_empty m rest), containsChar_append m rest,
      splitFirst_append m rest hm]
    simp [pyIntE, hmi, hsi, Except.bind]
  · intro m rest hm hbad
    unfold parse_fight_time
    rw [if_neg (append_colon_ne_empty m rest), containsChar_append m rest,
      splitFirst_append m rest hm]
    rcases hbad with hbad | hbad
    · simp [pyIntE, hbad, Except.bind]
    · cases hmi : pyInt m with
      | none => simp [pyIntE, hmi, Except.bind]
      | some mi => simp [pyIntE, hmi, hbad, Except.bind]

/-- Witness for C7: the string 3:04 parses to 184 seconds. -/
theorem C7_witness :
    parse_fight_time ("3" ++ ":" ++ "04") = Except.ok (some (60 * 3 + 4)) :=
  C7_duration_parse.2.1 "3" "04" 3 4 (by decide) (by decide) (by decide)

theorem flatten_nil_members {l : List (List Char)} (h : l.flatten = []) :
    ∀ x ∈ l, x = [] := by
  induction l with
  | nil => simp
  | cons a xs ih =>
    rw [List.flatten_cons, List.append_eq_nil] at h
    intro x hx
    rcases List.mem_cons.mp hx with hx2 | hx2
    · rw [hx2]
      exact h.1
    · exact ih h.2 x hx2

/-- If no content string of the counter is empty and the text of the counter
is empty, the contents list is empty (so the BeautifulSoup 3 tag is falsy). -/
theorem counter_contents_nil (t : CounterTag) (hne : "" ∉ t.contents)
    (h : tagText t = "") : t.contents = [] := by
  have hflat : (t.contents.map String.data).flatten = [] := congrArg String.data h
  cases hc : t.contents with
  | nil => rfl
  | cons s ss =>
    exfalso
    have hs : s.data = [] := by
      apply flatten_nil_members hflat
      rw [hc]
      simp
    have hsempty : s = "" := by
      cases s with
      | mk d =>
        simp only [String.data] at hs
        rw [hs]
    apply hne
    rw [hc, ← hsempty]
    exact List.mem_cons_self s ss

/-- Claim C8 counterexample: a present counter whose text is the single
character 0 — neither missing nor empty — also yields the value 0, so the
claimed exactly-when characterization of the 0 value is false. -/
theorem C8_counterexample :
    parse_counter (some (some (CounterTag.mk ["0"]))) = Except.ok (some 0) ∧
    tagText (CounterTag.mk ["0"]) ≠ "" ∧
    (some (some (CounterTag.mk ["0"])) : Option (Option CounterTag)) ≠ none ∧
    (some (some (CounterTag.mk ["0"])) : Option (Option CounterTag)) ≠ some none := by
  decide

/-- Claim C8 (corrected): the wins (respectively losses) field is left
absent exactly when the bio_graph block is missing; it defaults to 0 when
the block is present but the counter element is missing or its text is empty
(assuming, as a real parse tree guarantees, that no content node is an empty
string); and a present counter whose text parses as an integer yields that
integer — which is also 0 when the text itself is the numeral 0, so 0 does
not arise only in the defaulting cases. -/
theorem C8_counter_rule (graph : Option (Option CounterTag))
    (hne : ∀ t, graph = some (some t) → "" ∉ t.contents) :
    (parse_counter graph = Except.ok none ↔ graph = none) ∧
    (graph = some none → parse_counter graph = Except.ok (some 0)) ∧
    (∀ t, graph = some (some t) → tagText t = "" →
      parse_counter graph = Except.ok (some 0)) ∧
    (∀ t n, graph = some (some t) → pyInt (tagText t) = some n →
      parse_counter graph = Except.ok (some n)) := by
  cases graph with
  | none =>
    refine ⟨by simp [parse_counter], ?_, ?_, ?_⟩
    · intro hx; cases hx
    · intro t hx; cases hx
    · intro t n hx; cases hx
  | some inner =>
    cases inner with
    | none =>
      refine ⟨by simp [parse_counter], fun _ => rfl, ?_, ?_⟩
      · intro t hx; cases hx
      · intro t n hx; cases hx
    | some t =>
      refine ⟨?_, ?_, ?_, ?_⟩
      · constructor
        · intro hp
          exfalso
          simp only [parse_counter] at hp
          by_cases ht : tagTruthy t = true
          · rw [if_pos ht] at hp
            cases hpi : pyIntE (tagText t) with
            | error e => rw [hpi] at hp; cases hp
            | ok n => rw [hpi] at hp; cases hp
          · rw [if_neg ht] at hp
            cases hp
        · intro hx; cases hx
      · intro hx; cases hx
      · intro t2 hx htext
        injection hx with hx2
        injection hx2 with hx3
        subst hx3
        have hcontents : t.contents = [] :=
          counter_contents_nil t (hne t rfl) htext
        simp only [parse_counter, tagTruthy]
        simp [hcontents]
      · intro t2 n hx hparse
        injection hx with hx2
        injection hx2 with hx3
        subst hx3
        have htruthy : tagTruthy t = true := by
          by_contra hf
          have hcontents : t.contents = [] := by
            unfold tagTruthy at hf
            simpa using hf
          have htext : tagText t = "" := by
            unfold tagText
            rw [hcontents]
            rfl
          rw [htext] at hparse
          cases hparse
        simp only [parse_counter]
        rw [if_pos htruthy]
        simp [pyIntE, hparse, Except.map]

/-- Witness for C8: a present counter with text 12 yields wins 12. -/
theorem C8_witness :
    parse_counter (some (some (CounterTag.mk ["12"]))) = Except.ok (some 12) :=
  (C8_counter_rule (some (some (CounterTag.mk ["12"])))
      (by intro t hx; injection hx with hx2; injection hx2 with hx3; rw [← hx3]; decide)).2.2.2
    (CounterTag.mk ["12"]) 12 rfl (by decide)

end Sherdog
